import Mathlib

/-!
Shallow embedding of the credential lifecycle and token-renewal subsystem of
the Spofy-Controller repository (src/index.py): the Durable Token Store
(`load_token_from_gist_for_user`, `save_token_to_gist`), the Token Renewal
Engine (`renew_access_token`), the Valid-Token Accessor (`get_valid_token`)
and the Upstream Request Dispatcher (`spotify_request`).

Modelling conventions:
* Python JSON values are the inductive `Json`; machine floats for Unix times
  are modelled as `Int` seconds (only comparisons and additions occur).
* A Python function that may raise returns `Except PyErr _`; where the source
  wraps its whole body in `try/except Exception` returning a fallback, the
  embedding folds the catch into a total function (this is the case for
  `load_token_from_gist_for_user` and `save_token_to_gist` only).
* Network I/O is an oracle argument: the outcome of each `requests.*` call
  (either a transport-level exception, as raised by `requests` on connection
  errors and timeouts, or a response with a status code and a body) is passed
  in explicitly, so every function is a pure function of its oracle.
* JSON text (the gist slot content handled by `json.dumps` / `json.loads`) is
  modelled by `JStr`: a string classified by its parse — either well formed
  with a parse `j : Json`, or malformed.  `json.dumps` produces a well-formed
  text whose parse is its argument (Python guarantees
  `json.loads (json.dumps x) = x` for the record values written here), and
  `json.loads` raises exactly on malformed text.
-/

namespace Spofy

/-- JSON values as produced by `res.json()` / `json.loads`. -/
inductive Json where
  | null : Json
  | bool (b : Bool) : Json
  | num (n : Int) : Json
  | str (s : String) : Json
  | arr (elems : List Json) : Json
  | obj (fields : List (String × Json)) : Json
deriving Repr

/-- Python exceptions that can cross the functions of the subsystem:
`transport` models the exceptions raised by the `requests` library
(connection errors and timeouts), `keyError` a `dict[k]` miss, `typeError`
arithmetic or indexing on a value of the wrong shape, `attributeError` a
`.get` call on a non-dict, `jsonDecode` a `json.loads` failure, and `http`
a FastAPI `HTTPException(status_code, detail)`. -/
inductive PyErr where
  | transport (msg : String) : PyErr
  | keyError (key : String) : PyErr
  | typeError : PyErr
  | attributeError : PyErr
  | jsonDecode : PyErr
  | http (status : Nat) (detail : String) : PyErr
deriving Repr, DecidableEq

/-- Per-user configuration dict as returned by `get_user_config`
(src/index.py lines 79-93); a missing or empty entry is modelled as `""`,
which has the same truthiness as Python's `None` or `""` in every use site. -/
structure Config where
  client_id : String
  client_secret : String
  gist_id : String
  github_token : String
  gist_filename : String
deriving Repr, DecidableEq

/-- Outcome of one `requests.get/post/request` call: `err` models a raised
transport exception, `ok` a returned response with status code and parsed
JSON body. -/
inductive HttpOutcome where
  | err (msg : String) : HttpOutcome
  | ok (status : Nat) (body : Json) : HttpOutcome
deriving Repr

/-- A returned HTTP response (what `spotify_request` hands back to callers). -/
structure HttpResponse where
  status : Nat
  body : Json
deriving Repr

/-- JSON text classified by its parse (see the file header). -/
inductive JStr where
  | wellFormed (j : Json) : JStr
  | malformed (s : String) : JStr
deriving Repr

/-- Model of `json.loads` on a slot content: raises exactly on malformed text. -/
def loads : JStr → Except PyErr Json
  | .wellFormed j => .ok j
  | .malformed _ => .error .jsonDecode

/-- Model of `json.dumps` (with `indent=2`): the produced text parses back to
its argument. -/
def dumps (j : Json) : JStr := .wellFormed j

/-- Python `d[k]` on a JSON value: `KeyError` when the key is missing,
`TypeError` when the value is not a dict. -/
def jIndex : Json → String → Except PyErr Json
  | .obj l, k =>
    match l.lookup k with
    | some v => .ok v
    | none => .error (.keyError k)
  | _, _ => .error .typeError

/-- Python `d.get(k, default)` on a JSON value: `AttributeError` when the
value is not a dict. -/
def pyGet : Json → String → Json → Except PyErr Json
  | .obj l, k, d => .ok ((l.lookup k).getD d)
  | _, _, _ => .error .attributeError

/-- Python `time.time() + d.get(k, default)` where the default is an `Int`:
a present non-numeric value makes the addition raise `TypeError`. -/
def pyGetNum : Json → String → Int → Except PyErr Int
  | .obj l, k, d =>
    match l.lookup k with
    | none => .ok d
    | some (.num n) => .ok n
    | some _ => .error .typeError
  | _, _, _ => .error .attributeError

/-- Python truthiness of a JSON value (`if not x`). -/
def truthy : Json → Bool
  | .null => false
  | .bool b => b
  | .num n => n != 0
  | .str s => s != ""
  | .arr l => !l.isEmpty
  | .obj l => !l.isEmpty

/-- Numeric coercion used by `time.time() >= expires_at - 300`: arithmetic on
a non-numeric `expires_at` raises `TypeError`. -/
def toNum : Json → Except PyErr Int
  | .num n => .ok n
  | _ => .error .typeError

/-- Effective gist filename: `config.get("gist_filename") or
"spotify_tokens.json"` (src/index.py lines 119, 145). -/
def effFilename (cfg : Config) : String :=
  if cfg.gist_filename = "" then "spotify_tokens.json" else cfg.gist_filename

/-- The token record JSON object `{access_token, refresh_token, expires_at}`
in the field order written by `save_token_to_gist` (src/index.py 160-167). -/
def mkRecord (a r : Json) (e : Int) : Json :=
  .obj [("access_token", a), ("refresh_token", r), ("expires_at", .num e)]

/-- The zero-value record returned by `load_token_from_gist_for_user` on any
failure (src/index.py lines 115, 122, 135). -/
def zeroRecord : Json := mkRecord (.str "") (.str "") 0

/-- Oracle for the gist `GET` performed by `load_token_from_gist_for_user`:
a transport exception, or a response with a status code and — when the body
parses to a dict with a usable `"files"` entry — the map from filename to
slot content text.  `files = none` collapses the bodies on which
`res.json()` or `data["files"]` raises (all caught by the function's
`except`, hence observationally equal). -/
inductive LoadOutcome where
  | transport (msg : String) : LoadOutcome
  | resp (status : Nat) (files : Option (List (String × JStr))) : LoadOutcome
deriving Repr

/-- Embedding of `load_token_from_gist_for_user` (src/index.py 112-135).
The source wraps the `GET` and all parsing in `try/except Exception` and
falls through to `return {"access_token": "", "refresh_token": "",
"expires_at": 0}` on any failure, so the embedding is total: every raising
path of the try body is mapped to `zeroRecord`, exactly as the source's
catch-then-fall-through does. -/
def load_token_from_gist_for_user (config : Option Config) (out : LoadOutcome) : Json :=
  match config with
  | none => zeroRecord
  | some cfg =>
    if cfg.gist_id = "" ∨ cfg.github_token = "" then zeroRecord
    else
      match out with
      | .transport _ => zeroRecord
      | .resp status files =>
        if status = 200 then
          match files with
          | none => zeroRecord
          | some fl =>
            match fl.lookup (effFilename cfg) with
            | none => zeroRecord
            | some c =>
              match loads c with
              | .ok j => j
              | .error _ => zeroRecord
        else zeroRecord

/-- Outcome of the gist `PATCH` performed by `save_token_to_gist`. -/
inductive PatchOutcome where
  | transport (msg : String) : PatchOutcome
  | resp (status : Nat) : PatchOutcome
deriving Repr, DecidableEq

/-- Result of `save_token_to_gist`: the returned boolean, and the slot
(filename and serialized content) sent in the `PATCH` payload when one was
sent (`none` when the function returned before building the request). -/
structure SaveResult where
  ok : Bool
  written : Option (String × JStr)
deriving Repr

/-- Embedding of `save_token_to_gist` (src/index.py 137-178).  The `PATCH`
is wrapped in `try/except` returning `False`, so the embedding is total. -/
def save_token_to_gist (access_token refresh_token : Json) (expires_at : Int)
    (config : Option Config) (out : PatchOutcome) : SaveResult :=
  match config with
  | none => ⟨false, none⟩
  | some cfg =>
    if cfg.gist_id = "" ∨ cfg.github_token = "" then ⟨false, none⟩
    else
      let content := dumps (mkRecord access_token refresh_token expires_at)
      match out with
      | .transport _ => ⟨false, some (effFilename cfg, content)⟩
      | .resp s => ⟨s = 200, some (effFilename cfg, content)⟩

/-- The invocation of `save_token_to_gist` made by `renew_access_token`
(src/index.py line 207): the three record fields it passes. -/
structure SaveCall where
  access_token : Json
  refresh_token : Json
  expires_at : Int
deriving Repr

/-- Result of `renew_access_token`: `result` is the returned value
(`.ok (some token_data)` for a parsed exchange result, `.ok none` for
Python `None`) or a raised exception; `posted` records whether the
`requests.post` to the authorization server was reached; `saved` records
the arguments of the `save_token_to_gist` call when one was made. -/
structure RenewResult where
  result : Except PyErr (Option Json)
  posted : Bool
  saved : Option SaveCall
deriving Repr

/-- Embedding of `renew_access_token` (src/index.py 180-211).  Note the
source does NOT wrap the `requests.post` in `try/except`, and indexes
`token_data["access_token"]` unguarded: transport exceptions and a missing
`access_token` key propagate to the caller (modelled as `.error`). -/
def renew_access_token (refresh_token : Json) (config : Option Config)
    (post : HttpOutcome) (now : Int) : RenewResult :=
  match config with
  | none => ⟨.ok none, false, none⟩
  | some cfg =>
    if cfg.client_id = "" ∨ cfg.client_secret = "" then ⟨.ok none, false, none⟩
    else
      match post with
      | .err m => ⟨.error (.transport m), true, none⟩
      | .ok status body =>
        if status = 200 then
          match jIndex body "access_token" with
          | .error e => ⟨.error e, true, none⟩
          | .ok at_ =>
            match pyGet body "refresh_token" refresh_token with
            | .error e => ⟨.error e, true, none⟩
            | .ok nrt =>
              match pyGetNum body "expires_in" 3600 with
              | .error e => ⟨.error e, true, none⟩
              | .ok ein => ⟨.ok (some body), true, some ⟨at_, nrt, now + ein⟩⟩
        else ⟨.ok none, true, none⟩

/-- Result of `get_valid_token`: the returned access-token value or the
raised exception, whether `renew_access_token` was called (the only path
that contacts the authorization server), and the record the renewal
persisted (if any). -/
structure GVTResult where
  result : Except PyErr Json
  renew_called : Bool
  saved : Option SaveCall
deriving Repr

/-- Body of `get_valid_token` after the load (src/index.py 216-234),
parameterized by the loaded record `cached`: extracts the three fields with
`.get`, checks their truthiness, compares `now` against
`expires_at - 300`, and either returns the cached token, or renews and
returns `token_data["access_token"]` from the exchange result, raising
`HTTPException(500, "Failed to renew token")` when the renewal returned a
falsy value. -/
def gvt_with_cached (config : Option Config) (cached : Json) (now : Int)
    (renewPost : HttpOutcome) : GVTResult :=
  match pyGet cached "access_token" (.str "") with
  | .error e => ⟨.error e, false, none⟩
  | .ok access_token =>
    match pyGet cached "refresh_token" (.str "") with
    | .error e => ⟨.error e, false, none⟩
    | .ok refresh_token =>
      match pyGet cached "expires_at" (.num 0) with
      | .error e => ⟨.error e, false, none⟩
      | .ok expires_at =>
        if truthy access_token = false then
          ⟨.error (.http 400 "No access_token in Gist. Call /init first"), false, none⟩
        else if truthy refresh_token = false then
          ⟨.error (.http 400 "No refresh_token in Gist"), false, none⟩
        else
          match toNum expires_at with
          | .error e => ⟨.error e, false, none⟩
          | .ok ea =>
            if now ≥ ea - 300 then
              let r := renew_access_token refresh_token config renewPost now
              match r.result with
              | .error e => ⟨.error e, true, r.saved⟩
              | .ok (some td) =>
                if truthy td then
                  match jIndex td "access_token" with
                  | .ok v => ⟨.ok v, true, r.saved⟩
                  | .error e => ⟨.error e, true, r.saved⟩
                else ⟨.error (.http 500 "Failed to renew token"), true, r.saved⟩
              | .ok none => ⟨.error (.http 500 "Failed to renew token"), true, r.saved⟩
            else ⟨.ok access_token, false, none⟩

/-- Embedding of `get_valid_token` (src/index.py 213-234): line 215 loads the
cached record, the remainder is `gvt_with_cached`. -/
def get_valid_token (config : Option Config) (loadOut : LoadOutcome) (now : Int)
    (renewPost : HttpOutcome) : GVTResult :=
  gvt_with_cached config (load_token_from_gist_for_user config loadOut) now renewPost

/-- Result of `spotify_request`: the response returned to the caller (or the
raised exception), how many times `renew_access_token` was invoked, and
whether the request was replayed with a fresh bearer token. -/
structure SpotifyReqResult where
  result : Except PyErr HttpResponse
  renew_calls : Nat
  replayed : Bool
deriving Repr

/-- Embedding of `spotify_request` (src/index.py 236-249).  Oracles: `first`
is the outcome of the initial upstream request, `loadOut` the gist read
performed on a 401, `renewPost` the authorization-server exchange, `replay`
the outcome of the single replayed request.  The source only enters the
retry branch when the first response status is exactly 401; on renewal
success it overwrites `res` with the replay's response, so the replay's
response — not the original 401 object — is what is returned. -/
def spotify_request (config : Option Config) (first : HttpOutcome)
    (loadOut : LoadOutcome) (renewPost : HttpOutcome) (now : Int)
    (replay : HttpOutcome) : SpotifyReqResult :=
  match first with
  | .err m => ⟨.error (.transport m), 0, false⟩
  | .ok status body =>
    if status = 401 then
      let cached := load_token_from_gist_for_user config loadOut
      match pyGet cached "refresh_token" (.str "") with
      | .error e => ⟨.error e, 0, false⟩
      | .ok rt =>
        let r := renew_access_token rt config renewPost now
        match r.result with
        | .error e => ⟨.error e, 1, false⟩
        | .ok none => ⟨.ok ⟨status, body⟩, 1, false⟩
        | .ok (some td) =>
          if truthy td then
            match jIndex td "access_token" with
            | .error e => ⟨.error e, 1, false⟩
            | .ok _ =>
              match replay with
              | .err m => ⟨.error (.transport m), 1, true⟩
              | .ok st2 b2 => ⟨.ok ⟨st2, b2⟩, 1, true⟩
          else ⟨.ok ⟨status, body⟩, 1, false⟩
    else ⟨.ok ⟨status, body⟩, 0, false⟩

/-- A concrete, fully configured per-user configuration used to instantiate
universally quantified theorems at concrete inputs. -/
def cfgW : Config := ⟨"cid", "cs", "gid", "ghtok", ""⟩

/-! Helper lemmas about field extraction from a token record. -/

theorem pyGet_mkRecord_access (a r : Json) (e : Int) (d : Json) :
    pyGet (mkRecord a r e) "access_token" d = .ok a := rfl

theorem pyGet_mkRecord_refresh (a r : Json) (e : Int) (d : Json) :
    pyGet (mkRecord a r e) "refresh_token" d = .ok r := rfl

theorem pyGet_mkRecord_expires (a r : Json) (e : Int) (d : Json) :
    pyGet (mkRecord a r e) "expires_at" d = .ok (.num e) := rfl

theorem truthy_str (s : String) (h : s ≠ "") : truthy (.str s) = true := by
  simp [truthy, bne, h]

theorem truthy_of_jIndex_ok (td v : Json) (k : String) (h : jIndex td k = .ok v) :
    truthy td = true := by
  cases td with
  | obj l =>
    cases l with
    | nil => simp [jIndex, List.lookup] at h
    | cons p t => simp [truthy]
  | null => simp [jIndex] at h
  | bool b => simp [jIndex] at h
  | num n => simp [jIndex] at h
  | str s => simp [jIndex] at h
  | arr es => simp [jIndex] at h

/-- C5: for every locator and store behavior, `load_token_from_gist_for_user`
never raises (its embedding is a total function into `Json` because the
source catches every exception of its try body and falls through to the
zero-value record), and on each of the four failure modes — transport error
or timeout, non-200 response, missing slot, malformed slot content — it
returns the zero-value record `{access_token: "", refresh_token: "",
expires_at: 0}`. -/
theorem load_failure_isolation :
    (∀ (cfg? : Option Config) (m : String),
        load_token_from_gist_for_user cfg? (.transport m) = zeroRecord)
    ∧ (∀ (cfg? : Option Config) (s : Nat) (files : Option (List (String × JStr))),
        s ≠ 200 → load_token_from_gist_for_user cfg? (.resp s files) = zeroRecord)
    ∧ (∀ (cfg : Config) (fl : List (String × JStr)),
        List.lookup (effFilename cfg) fl = none →
        load_token_from_gist_for_user (some cfg) (.resp 200 (some fl)) = zeroRecord)
    ∧ (∀ (cfg : Config) (fl : List (String × JStr)) (s : String),
        List.lookup (effFilename cfg) fl = some (.malformed s) →
        load_token_from_gist_for_user (some cfg) (.resp 200 (some fl)) = zeroRecord) := by
  refine ⟨?_, ?_, ?_, ?_⟩
  · intro cfg? m
    cases cfg? with
    | none => rfl
    | some cfg =>
      simp only [load_token_from_gist_for_user]
      by_cases h : cfg.gist_id = "" ∨ cfg.github_token = ""
      · rw [if_pos h]
      · rw [if_neg h]
  · intro cfg? s files hs
    cases cfg? with
    | none => rfl
    | some cfg =>
      simp only [load_token_from_gist_for_user]
      by_cases h : cfg.gist_id = "" ∨ cfg.github_token = ""
      · rw [if_pos h]
      · rw [if_neg h, if_neg hs]
  · intro cfg fl hlook
    simp only [load_token_from_gist_for_user]
    by_cases h : cfg.gist_id = "" ∨ cfg.github_token = ""
    · rw [if_pos h]
    · rw [if_neg h, if_true, hlook]
  · intro cfg fl s hlook
    simp only [load_token_from_gist_for_user]
    by_cases h : cfg.gist_id = "" ∨ cfg.github_token = ""
    · rw [if_pos h]
    · rw [if_neg h, if_true, hlook]
      rfl

/-- Witness for `load_failure_isolation` at concrete inputs. -/
theorem load_failure_isolation_witness :
    load_token_from_gist_for_user (some cfgW) (.transport "timeout") = zeroRecord
    ∧ load_token_from_gist_for_user (some cfgW) (.resp 404 none) = zeroRecord
    ∧ load_token_from_gist_for_user (some cfgW) (.resp 200 (some [])) = zeroRecord
    ∧ load_token_from_gist_for_user (some cfgW)
        (.resp 200 (some [("spotify_tokens.json", .malformed "not json")])) = zeroRecord :=
  ⟨load_failure_isolation.1 (some cfgW) "timeout",
   load_failure_isolation.2.1 (some cfgW) 404 none (by decide),
   load_failure_isolation.2.2.1 cfgW [] rfl,
   load_failure_isolation.2.2.2 cfgW [("spotify_tokens.json", .malformed "not json")]
     "not json" rfl⟩

/-- C9: for every refresh token, if the configuration is absent or its
`client_id` or `client_secret` is empty, `renew_access_token` returns
`None` immediately: no POST to the authorization server is made
(`posted = false`) and no store write happens (`saved = none`). -/
theorem renew_access_token_unconfigured :
    (∀ (rt : Json) (post : HttpOutcome) (now : Int),
        renew_access_token rt none post now = ⟨.ok none, false, none⟩)
    ∧ (∀ (rt : Json) (cfg : Config) (post : HttpOutcome) (now : Int),
        cfg.client_id = "" ∨ cfg.client_secret = "" →
        renew_access_token rt (some cfg) post now = ⟨.ok none, false, none⟩) := by
  refine ⟨fun _ _ _ => rfl, ?_⟩
  intro rt cfg post now h
  simp only [renew_access_token]
  rw [if_pos h]

/-- Witness for `renew_access_token_unconfigured` at concrete inputs. -/
theorem renew_access_token_unconfigured_witness :
    renew_access_token (.str "rt") none (.ok 200 (.obj [("access_token", .str "T")])) 0
      = ⟨.ok none, false, none⟩
    ∧ renew_access_token (.str "rt") (some ⟨"", "cs", "gid", "ghtok", ""⟩)
        (.ok 200 (.obj [("access_token", .str "T")])) 0 = ⟨.ok none, false, none⟩ :=
  ⟨renew_access_token_unconfigured.1 (.str "rt") (.ok 200 (.obj [("access_token", .str "T")])) 0,
   renew_access_token_unconfigured.2 (.str "rt") ⟨"", "cs", "gid", "ghtok", ""⟩
     (.ok 200 (.obj [("access_token", .str "T")])) 0 (Or.inl rfl)⟩

/-- C10: with a missing storage configuration (no config, or empty `gist_id`
or `github_token`), the load collapses to the zero-value record and
`get_valid_token` fails with exactly the `MissingAccessToken` error used
for an uninitialized record (`HTTPException(400, "No access_token in Gist.
Call /init first")`), without calling the renewal engine. -/
theorem get_valid_token_unconfigured_store :
    (∀ (loadOut : LoadOutcome) (now : Int) (post : HttpOutcome),
        get_valid_token none loadOut now post
          = ⟨.error (.http 400 "No access_token in Gist. Call /init first"), false, none⟩)
    ∧ (∀ (cfg : Config) (loadOut : LoadOutcome) (now : Int) (post : HttpOutcome),
        cfg.gist_id = "" ∨ cfg.github_token = "" →
        load_token_from_gist_for_user (some cfg) loadOut = zeroRecord
        ∧ get_valid_token (some cfg) loadOut now post
          = ⟨.error (.http 400 "No access_token in Gist. Call /init first"), false, none⟩) := by
  refine ⟨fun _ _ _ => rfl, ?_⟩
  intro cfg loadOut now post h
  have hl : load_token_from_gist_for_user (some cfg) loadOut = zeroRecord := by
    simp only [load_token_from_gist_for_user]
    rw [if_pos h]
  refine ⟨hl, ?_⟩
  unfold get_valid_token
  rw [hl]
  rfl

/-- Witness for `get_valid_token_unconfigured_store` at concrete inputs. -/
theorem get_valid_token_unconfigured_store_witness :
    get_valid_token none (.resp 200 (some [])) 0 (.ok 200 (.obj []))
      = ⟨.error (.http 400 "No access_token in Gist. Call /init first"), false, none⟩
    ∧ load_token_from_gist_for_user (some ⟨"cid", "cs", "", "ghtok", ""⟩)
        (.resp 200 (some [("spotify_tokens.json",
          dumps (mkRecord (.str "A") (.str "R") 100))])) = zeroRecord
    ∧ get_valid_token (some ⟨"cid", "cs", "", "ghtok", ""⟩)
        (.resp 200 (some [("spotify_tokens.json",
          dumps (mkRecord (.str "A") (.str "R") 100))])) 0 (.ok 200 (.obj []))
      = ⟨.error (.http 400 "No access_token in Gist. Call /init first"), false, none⟩ :=
  ⟨get_valid_token_unconfigured_store.1 (.resp 200 (some [])) 0 (.ok 200 (.obj [])),
   (get_valid_token_unconfigured_store.2 ⟨"cid", "cs", "", "ghtok", ""⟩
      (.resp 200 (some [("spotify_tokens.json",
        dumps (mkRecord (.str "A") (.str "R") 100))])) 0 (.ok 200 (.obj []))
      (Or.inl rfl)).1,
   (get_valid_token_unconfigured_store.2 ⟨"cid", "cs", "", "ghtok", ""⟩
      (.resp 200 (some [("spotify_tokens.json",
        dumps (mkRecord (.str "A") (.str "R") 100))])) 0 (.ok 200 (.obj []))
      (Or.inl rfl)).2⟩

theorem truthy_empty : truthy (.str "") = false := rfl

/-- C3: for every stored record with non-empty access and refresh tokens and
every current time `now`, `get_valid_token` calls the renewal engine if and
only if `now >= expires_at - 300` (the `GRACE_SECONDS = 300` freshness
test of src/index.py line 226). -/
theorem get_valid_token_renew_boundary
    (cfg? : Option Config) (loadOut : LoadOutcome) (now ea : Int) (a r : String)
    (post : HttpOutcome) (ha : a ≠ "") (hr : r ≠ "")
    (hload : load_token_from_gist_for_user cfg? loadOut = mkRecord (.str a) (.str r) ea) :
    ((get_valid_token cfg? loadOut now post).renew_called = true) ↔ ea - 300 ≤ now := by
  unfold get_valid_token
  rw [hload]
  simp only [gvt_with_cached, pyGet_mkRecord_access, pyGet_mkRecord_refresh,
    pyGet_mkRecord_expires, truthy_str a ha, truthy_str r hr, toNum,
    Bool.true_eq_false, if_false, ge_iff_le]
  by_cases hnow : ea - 300 ≤ now
  · rw [if_pos hnow]
    refine iff_of_true ?_ hnow
    split <;> first | rfl | (split <;> first | rfl | (split <;> rfl))
  · rw [if_neg hnow]
    simp [hnow]

/-- Witness for `get_valid_token_renew_boundary`: with `expires_at = 1000`,
no renewal is attempted at `now = 699 = expires_at - 301` and a renewal is
attempted at `now = 700 = expires_at - 300`. -/
theorem get_valid_token_renew_boundary_witness :
    (get_valid_token (some cfgW)
      (.resp 200 (some [("spotify_tokens.json", dumps (mkRecord (.str "A") (.str "R") 1000))]))
      699 (.ok 200 (.obj [("access_token", .str "N")]))).renew_called = false
    ∧ (get_valid_token (some cfgW)
      (.resp 200 (some [("spotify_tokens.json", dumps (mkRecord (.str "A") (.str "R") 1000))]))
      700 (.ok 200 (.obj [("access_token", .str "N")]))).renew_called = true := by
  constructor
  · have h := get_valid_token_renew_boundary (some cfgW)
      (.resp 200 (some [("spotify_tokens.json", dumps (mkRecord (.str "A") (.str "R") 1000))]))
      699 1000 "A" "R" (.ok 200 (.obj [("access_token", .str "N")]))
      (by decide) (by decide) rfl
    simpa using h.not.mpr (by decide)
  · exact (get_valid_token_renew_boundary (some cfgW)
      (.resp 200 (some [("spotify_tokens.json", dumps (mkRecord (.str "A") (.str "R") 1000))]))
      700 1000 "A" "R" (.ok 200 (.obj [("access_token", .str "N")]))
      (by decide) (by decide) rfl).mpr (by decide)

/-- C6: for a stored record with non-empty tokens, `get_valid_token` returns
the stored access token unchanged when `now < expires_at - 300`; when
renewal triggers and the exchange result `td` is returned by the renewal
engine, it returns `td["access_token"]` taken directly from that exchange
result; when the renewal engine returns `None`, it fails with
`HTTPException(500, "Failed to renew token")` (the `RenewalFailed` hard
error). -/
theorem get_valid_token_result_cases
    (cfg? : Option Config) (loadOut : LoadOutcome) (now ea : Int) (a r : String)
    (post : HttpOutcome) (ha : a ≠ "") (hr : r ≠ "")
    (hload : load_token_from_gist_for_user cfg? loadOut = mkRecord (.str a) (.str r) ea) :
    (now < ea - 300 → get_valid_token cfg? loadOut now post = ⟨.ok (.str a), false, none⟩)
    ∧ (∀ (td v : Json), ea - 300 ≤ now →
        (renew_access_token (.str r) cfg? post now).result = .ok (some td) →
        jIndex td "access_token" = .ok v →
        (get_valid_token cfg? loadOut now post).result = .ok v)
    ∧ (ea - 300 ≤ now →
        (renew_access_token (.str r) cfg? post now).result = .ok none →
        (get_valid_token cfg? loadOut now post).result
          = .error (.http 500 "Failed to renew token")) := by
  unfold get_valid_token
  rw [hload]
  simp only [gvt_with_cached, pyGet_mkRecord_access, pyGet_mkRecord_refresh,
    pyGet_mkRecord_expires, truthy_str a ha, truthy_str r hr, toNum,
    Bool.true_eq_false, if_false, ge_iff_le]
  refine ⟨?_, ?_, ?_⟩
  · intro hlt
    rw [if_neg (not_le.mpr hlt)]
  · intro td v hnow hres hj
    rw [if_pos hnow]
    simp only [hres, truthy_of_jIndex_ok td v "access_token" hj, if_true, hj]
  · intro hnow hres
    rw [if_pos hnow]
    simp only [hres]

/-- Witness for `get_valid_token_result_cases`: the fresh-token, successful
renewal, and failed renewal cases at concrete inputs. -/
theorem get_valid_token_result_cases_witness :
    get_valid_token (some cfgW)
      (.resp 200 (some [("spotify_tokens.json", dumps (mkRecord (.str "A") (.str "R") 1000))]))
      699 (.ok 200 (.obj [("access_token", .str "N")]))
      = ⟨.ok (.str "A"), false, none⟩
    ∧ (get_valid_token (some cfgW)
      (.resp 200 (some [("spotify_tokens.json", dumps (mkRecord (.str "A") (.str "R") 1000))]))
      700 (.ok 200 (.obj [("access_token", .str "N")]))).result = .ok (.str "N")
    ∧ (get_valid_token (some cfgW)
      (.resp 200 (some [("spotify_tokens.json", dumps (mkRecord (.str "A") (.str "R") 1000))]))
      700 (.ok 503 (.obj []))).result = .error (.http 500 "Failed to renew token") :=
  ⟨(get_valid_token_result_cases (some cfgW)
      (.resp 200 (some [("spotify_tokens.json", dumps (mkRecord (.str "A") (.str "R") 1000))]))
      699 1000 "A" "R" (.ok 200 (.obj [("access_token", .str "N")]))
      (by decide) (by decide) rfl).1 (by decide),
   (get_valid_token_result_cases (some cfgW)
      (.resp 200 (some [("spotify_tokens.json", dumps (mkRecord (.str "A") (.str "R") 1000))]))
      700 1000 "A" "R" (.ok 200 (.obj [("access_token", .str "N")]))
      (by decide) (by decide) rfl).2.1
      (.obj [("access_token", .str "N")]) (.str "N") (by decide) rfl rfl,
   (get_valid_token_result_cases (some cfgW)
      (.resp 200 (some [("spotify_tokens.json", dumps (mkRecord (.str "A") (.str "R") 1000))]))
      700 1000 "A" "R" (.ok 503 (.obj []))
      (by decide) (by decide) rfl).2.2 (by decide) rfl⟩

/-- C7: on a loaded record with an empty `access_token`, `get_valid_token`
fails with `HTTPException(400, "No access_token in Gist. Call /init
first")` (the `MissingAccessToken` error) without calling the renewal
engine; on a non-empty `access_token` with an empty `refresh_token`, it
fails with `HTTPException(400, "No refresh_token in Gist")` (the
`MissingRefreshToken` error), again with `renew_called = false`, i.e.
no network call to the authorization server. -/
theorem get_valid_token_missing_credentials :
    (∀ (cfg? : Option Config) (loadOut : LoadOutcome) (now : Int) (post : HttpOutcome)
        (rj : Json) (ea : Int),
        load_token_from_gist_for_user cfg? loadOut = mkRecord (.str "") rj ea →
        get_valid_token cfg? loadOut now post
          = ⟨.error (.http 400 "No access_token in Gist. Call /init first"), false, none⟩)
    ∧ (∀ (cfg? : Option Config) (loadOut : LoadOutcome) (now : Int) (post : HttpOutcome)
        (a : String) (ea : Int), a ≠ "" →
        load_token_from_gist_for_user cfg? loadOut = mkRecord (.str a) (.str "") ea →
        get_valid_token cfg? loadOut now post
          = ⟨.error (.http 400 "No refresh_token in Gist"), false, none⟩) := by
  constructor
  · intro cfg? loadOut now post rj ea hload
    unfold get_valid_token
    rw [hload]
    rfl
  · intro cfg? loadOut now post a ea ha hload
    unfold get_valid_token
    rw [hload]
    simp only [gvt_with_cached, pyGet_mkRecord_access, pyGet_mkRecord_refresh,
      pyGet_mkRecord_expires, truthy_str a ha, truthy_empty,
      Bool.true_eq_false, if_false, eq_self_iff_true, if_true]

/-- Witness for `get_valid_token_missing_credentials` at concrete inputs. -/
theorem get_valid_token_missing_credentials_witness :
    get_valid_token (some cfgW)
      (.resp 200 (some [("spotify_tokens.json", dumps zeroRecord)])) 0 (.ok 200 (.obj []))
      = ⟨.error (.http 400 "No access_token in Gist. Call /init first"), false, none⟩
    ∧ get_valid_token (some cfgW)
      (.resp 200 (some [("spotify_tokens.json", dumps (mkRecord (.str "A") (.str "") 0))]))
      0 (.ok 200 (.obj []))
      = ⟨.error (.http 400 "No refresh_token in Gist"), false, none⟩ :=
  ⟨get_valid_token_missing_credentials.1 (some cfgW)
     (.resp 200 (some [("spotify_tokens.json", dumps zeroRecord)])) 0 (.ok 200 (.obj []))
     (.str "") 0 rfl,
   get_valid_token_missing_credentials.2 (some cfgW)
     (.resp 200 (some [("spotify_tokens.json", dumps (mkRecord (.str "A") (.str "") 0))]))
     0 (.ok 200 (.obj [])) "A" 0 (by decide) rfl⟩

/-- C4: for every successful renewal (a 200 exchange response whose body `l`
carries an `access_token` value `v`), the record handed to the store
carries: `v` as access token; the OLD refresh token when the response
omits `refresh_token`, the new one when present; and
`expires_at = now + expires_in`, defaulting to `now + 3600` when
`expires_in` is absent. -/
theorem renew_access_token_persisted_record :
    (∀ (rt : Json) (cfg : Config) (l : List (String × Json)) (v : Json) (now : Int),
        cfg.client_id ≠ "" → cfg.client_secret ≠ "" →
        List.lookup "access_token" l = some v →
        List.lookup "refresh_token" l = none →
        List.lookup "expires_in" l = none →
        (renew_access_token rt (some cfg) (.ok 200 (.obj l)) now).saved
          = some ⟨v, rt, now + 3600⟩)
    ∧ (∀ (rt : Json) (cfg : Config) (l : List (String × Json)) (v w : Json) (now : Int),
        cfg.client_id ≠ "" → cfg.client_secret ≠ "" →
        List.lookup "access_token" l = some v →
        List.lookup "refresh_token" l = some w →
        List.lookup "expires_in" l = none →
        (renew_access_token rt (some cfg) (.ok 200 (.obj l)) now).saved
          = some ⟨v, w, now + 3600⟩)
    ∧ (∀ (rt : Json) (cfg : Config) (l : List (String × Json)) (v : Json) (n now : Int),
        cfg.client_id ≠ "" → cfg.client_secret ≠ "" →
        List.lookup "access_token" l = some v →
        List.lookup "refresh_token" l = none →
        List.lookup "expires_in" l = some (.num n) →
        (renew_access_token rt (some cfg) (.ok 200 (.obj l)) now).saved
          = some ⟨v, rt, now + n⟩)
    ∧ (∀ (rt : Json) (cfg : Config) (l : List (String × Json)) (v w : Json) (n now : Int),
        cfg.client_id ≠ "" → cfg.client_secret ≠ "" →
        List.lookup "access_token" l = some v →
        List.lookup "refresh_token" l = some w →
        List.lookup "expires_in" l = some (.num n) →
        (renew_access_token rt (some cfg) (.ok 200 (.obj l)) now).saved
          = some ⟨v, w, now + n⟩) := by
  have hcfg : ∀ (cfg : Config), cfg.client_id ≠ "" → cfg.client_secret ≠ "" →
      ¬(cfg.client_id = "" ∨ cfg.client_secret = "") := by
    intro cfg h1 h2
    simp [h1, h2]
  refine ⟨?_, ?_, ?_, ?_⟩ <;>
    intro rt cfg l v
  · intro now h1 h2 hv hw hn
    simp only [renew_access_token, if_neg (hcfg cfg h1 h2), if_true,
      jIndex, pyGet, pyGetNum, hv, hw, hn, Option.getD]
  · intro w now h1 h2 hv hw hn
    simp only [renew_access_token, if_neg (hcfg cfg h1 h2), if_true,
      jIndex, pyGet, pyGetNum, hv, hw, hn, Option.getD]
  · intro n now h1 h2 hv hw hn
    simp only [renew_access_token, if_neg (hcfg cfg h1 h2), if_true,
      jIndex, pyGet, pyGetNum, hv, hw, hn, Option.getD]
  · intro w n now h1 h2 hv hw hn
    simp only [renew_access_token, if_neg (hcfg cfg h1 h2), if_true,
      jIndex, pyGet, pyGetNum, hv, hw, hn, Option.getD]

/-- Witness for `renew_access_token_persisted_record` at concrete inputs. -/
theorem renew_access_token_persisted_record_witness :
    (renew_access_token (.str "OLD") (some cfgW)
      (.ok 200 (.obj [("access_token", .str "A2")])) 50).saved
      = some ⟨.str "A2", .str "OLD", 50 + 3600⟩
    ∧ (renew_access_token (.str "OLD") (some cfgW)
      (.ok 200 (.obj [("access_token", .str "A2"), ("refresh_token", .str "R2")])) 50).saved
      = some ⟨.str "A2", .str "R2", 50 + 3600⟩
    ∧ (renew_access_token (.str "OLD") (some cfgW)
      (.ok 200 (.obj [("access_token", .str "A2"), ("expires_in", .num 120)])) 50).saved
      = some ⟨.str "A2", .str "OLD", 50 + 120⟩
    ∧ (renew_access_token (.str "OLD") (some cfgW)
      (.ok 200 (.obj [("access_token", .str "A2"), ("refresh_token", .str "R2"),
        ("expires_in", .num 120)])) 50).saved
      = some ⟨.str "A2", .str "R2", 50 + 120⟩ :=
  ⟨renew_access_token_persisted_record.1 (.str "OLD") cfgW
     [("access_token", .str "A2")] (.str "A2") 50 (by decide) (by decide) rfl rfl rfl,
   renew_access_token_persisted_record.2.1 (.str "OLD") cfgW
     [("access_token", .str "A2"), ("refresh_token", .str "R2")] (.str "A2") (.str "R2") 50
     (by decide) (by decide) rfl rfl rfl,
   renew_access_token_persisted_record.2.2.1 (.str "OLD") cfgW
     [("access_token", .str "A2"), ("expires_in", .num 120)] (.str "A2") 120 50
     (by decide) (by decide) rfl rfl rfl,
   renew_access_token_persisted_record.2.2.2 (.str "OLD") cfgW
     [("access_token", .str "A2"), ("refresh_token", .str "R2"), ("expires_in", .num 120)]
     (.str "A2") (.str "R2") 120 50 (by decide) (by decide) rfl rfl rfl⟩

/-- C8: saving a record with arbitrary string tokens and an integer
`expires_at` writes `dumps` of exactly that record into the configured
slot, and loading from a store that faithfully serves the saved slot
yields the record back with all three fields intact. -/
theorem save_load_roundtrip
    (a r : String) (e : Int) (cfg : Config) (patchOut : PatchOutcome)
    (h1 : cfg.gist_id ≠ "") (h2 : cfg.github_token ≠ "") :
    (save_token_to_gist (.str a) (.str r) e (some cfg) patchOut).written
      = some (effFilename cfg, dumps (mkRecord (.str a) (.str r) e))
    ∧ load_token_from_gist_for_user (some cfg)
        (.resp 200 (some [(effFilename cfg, dumps (mkRecord (.str a) (.str r) e))]))
      = mkRecord (.str a) (.str r) e
    ∧ pyGet (mkRecord (.str a) (.str r) e) "access_token" (.str "") = .ok (.str a)
    ∧ pyGet (mkRecord (.str a) (.str r) e) "refresh_token" (.str "") = .ok (.str r)
    ∧ pyGet (mkRecord (.str a) (.str r) e) "expires_at" (.num 0) = .ok (.num e) := by
  have hgist : ¬(cfg.gist_id = "" ∨ cfg.github_token = "") := by
    simp [h1, h2]
  refine ⟨?_, ?_, pyGet_mkRecord_access _ _ _ _, pyGet_mkRecord_refresh _ _ _ _,
    pyGet_mkRecord_expires _ _ _ _⟩
  · simp only [save_token_to_gist, if_neg hgist]
    cases patchOut <;> rfl
  · simp only [load_token_from_gist_for_user, if_neg hgist, if_true,
      List.lookup, beq_self_eq_true, loads, dumps]

/-- Witness for `save_load_roundtrip` at concrete inputs. -/
theorem save_load_roundtrip_witness :
    (save_token_to_gist (.str "A") (.str "R") 77 (some cfgW) (.resp 200)).written
      = some (effFilename cfgW, dumps (mkRecord (.str "A") (.str "R") 77))
    ∧ load_token_from_gist_for_user (some cfgW)
        (.resp 200 (some [(effFilename cfgW, dumps (mkRecord (.str "A") (.str "R") 77))]))
      = mkRecord (.str "A") (.str "R") 77
    ∧ pyGet (mkRecord (.str "A") (.str "R") 77) "access_token" (.str "") = .ok (.str "A")
    ∧ pyGet (mkRecord (.str "A") (.str "R") 77) "refresh_token" (.str "") = .ok (.str "R")
    ∧ pyGet (mkRecord (.str "A") (.str "R") 77) "expires_at" (.num 0) = .ok (.num 77) :=
  save_load_roundtrip "A" "R" 77 cfgW (.resp 200) (by decide) (by decide)

/-- C1 counterexample: `renew_access_token` does NOT return `None` on a 200
response whose JSON body lacks `access_token` (it raises `KeyError`, since
`token_data["access_token"]` at src/index.py line 204 is unguarded), nor on
a transport error (the `requests.post` at line 199 is outside any
`try/except`, so the exception propagates). -/
theorem renew_access_token_uncaught_cases :
    (renew_access_token (.str "rt") (some cfgW) (.ok 200 (.obj [])) 0).result
      = .error (.keyError "access_token")
    ∧ (renew_access_token (.str "rt") (some cfgW) (.err "timeout") 0).result
      = .error (.transport "timeout")
    ∧ (renew_access_token (.str "rt") (some cfgW) (.ok 200 (.obj [])) 0).result
      ≠ .ok none
    ∧ (renew_access_token (.str "rt") (some cfgW) (.err "timeout") 0).result
      ≠ .ok none := by
  refine ⟨rfl, rfl, fun h => ?_, fun h => ?_⟩ <;> exact Except.noConfusion h

/-- C1 (amended): on any non-200 exchange response `renew_access_token`
returns `None` without raising; but a transport error propagates as an
exception, and so does a 200 response whose body lacks the `access_token`
field — neither is converted to `None`. -/
theorem renew_access_token_error_behavior :
    (∀ (rt : Json) (cfg? : Option Config) (st : Nat) (body : Json) (now : Int),
        st ≠ 200 → (renew_access_token rt cfg? (.ok st body) now).result = .ok none)
    ∧ (∀ (rt : Json) (cfg : Config) (m : String) (now : Int),
        cfg.client_id ≠ "" → cfg.client_secret ≠ "" →
        (renew_access_token rt (some cfg) (.err m) now).result = .error (.transport m))
    ∧ (∀ (rt : Json) (cfg : Config) (l : List (String × Json)) (now : Int),
        cfg.client_id ≠ "" → cfg.client_secret ≠ "" →
        List.lookup "access_token" l = none →
        (renew_access_token rt (some cfg) (.ok 200 (.obj l)) now).result
          = .error (.keyError "access_token")) := by
  refine ⟨?_, ?_, ?_⟩
  · intro rt cfg? st body now hst
    cases cfg? with
    | none => rfl
    | some cfg =>
      simp only [renew_access_token]
      by_cases hc : cfg.client_id = "" ∨ cfg.client_secret = ""
      · rw [if_pos hc]
      · rw [if_neg hc, if_neg hst]
  · intro rt cfg m now h1 h2
    have hc : ¬(cfg.client_id = "" ∨ cfg.client_secret = "") := by simp [h1, h2]
    simp only [renew_access_token, if_neg hc]
  · intro rt cfg l now h1 h2 hlook
    have hc : ¬(cfg.client_id = "" ∨ cfg.client_secret = "") := by simp [h1, h2]
    simp only [renew_access_token, if_neg hc, if_true, jIndex, hlook]

/-- Witness for `renew_access_token_error_behavior` at concrete inputs. -/
theorem renew_access_token_error_behavior_witness :
    (renew_access_token (.str "rt") (some cfgW) (.ok 503 (.str "oops")) 0).result = .ok none
    ∧ (renew_access_token (.str "rt") (some cfgW) (.err "timed out") 0).result
      = .error (.transport "timed out")
    ∧ (renew_access_token (.str "rt") (some cfgW)
        (.ok 200 (.obj [("scope", .str "x")])) 0).result
      = .error (.keyError "access_token") :=
  ⟨renew_access_token_error_behavior.1 (.str "rt") (some cfgW) 503 (.str "oops") 0 (by decide),
   renew_access_token_error_behavior.2.1 (.str "rt") cfgW "timed out" 0 (by decide) (by decide),
   renew_access_token_error_behavior.2.2 (.str "rt") cfgW [("scope", .str "x")] 0
     (by decide) (by decide) rfl⟩

/-- C2 counterexample: on a 401-then-401 sequence with a successful renewal
in between, `spotify_request` returns the REPLAY's 401 response (the
source overwrites `res` with the retried request's response at
src/index.py line 247), not the original 401 response object — the two
responses are distinguishable by their bodies. -/
theorem spotify_request_replay_401_returned :
    (spotify_request (some cfgW) (.ok 401 (.str "orig-body"))
      (.resp 200 (some [("spotify_tokens.json", dumps (mkRecord (.str "A") (.str "R") 100))]))
      (.ok 200 (.obj [("access_token", .str "T")])) 0 (.ok 401 (.str "retry-body"))).result
      = .ok ⟨401, .str "retry-body"⟩
    ∧ HttpResponse.mk 401 (.str "retry-body") ≠ HttpResponse.mk 401 (.str "orig-body") := by
  refine ⟨rfl, fun h => ?_⟩
  have hb := congrArg HttpResponse.body h
  simp at hb

/-- C2 (amended): a retry happens only when the first response status is
exactly 401; on a 401 exactly one renewal call is made (unconditionally,
not gated by the expiry check — `renew_access_token` is invoked directly);
if the renewal returns `None` the original 401 response is returned with no
replay; if the renewal succeeds the single replay's response is returned —
in particular, when the replay itself returns 401, no further renewal or
retry occurs and the REPLAY's 401 response (not the original object) is
returned. -/
theorem spotify_request_retry_policy :
    (∀ (cfg? : Option Config) (loadOut : LoadOutcome) (renewPost : HttpOutcome)
        (now : Int) (replay : HttpOutcome) (st : Nat) (body : Json),
        st ≠ 401 →
        spotify_request cfg? (.ok st body) loadOut renewPost now replay
          = ⟨.ok ⟨st, body⟩, 0, false⟩)
    ∧ (∀ (cfg? : Option Config) (loadOut : LoadOutcome) (renewPost : HttpOutcome)
        (now : Int) (replay : HttpOutcome) (body aj : Json) (rt : String) (ea : Int),
        load_token_from_gist_for_user cfg? loadOut = mkRecord aj (.str rt) ea →
        (spotify_request cfg? (.ok 401 body) loadOut renewPost now replay).renew_calls = 1)
    ∧ (∀ (cfg? : Option Config) (loadOut : LoadOutcome) (renewPost : HttpOutcome)
        (now : Int) (replay : HttpOutcome) (body aj : Json) (rt : String) (ea : Int),
        load_token_from_gist_for_user cfg? loadOut = mkRecord aj (.str rt) ea →
        (renew_access_token (.str rt) cfg? renewPost now).result = .ok none →
        spotify_request cfg? (.ok 401 body) loadOut renewPost now replay
          = ⟨.ok ⟨401, body⟩, 1, false⟩)
    ∧ (∀ (cfg? : Option Config) (loadOut : LoadOutcome) (renewPost : HttpOutcome)
        (now : Int) (body aj td v : Json) (rt : String) (ea : Int) (st2 : Nat) (b2 : Json),
        load_token_from_gist_for_user cfg? loadOut = mkRecord aj (.str rt) ea →
        (renew_access_token (.str rt) cfg? renewPost now).result = .ok (some td) →
        jIndex td "access_token" = .ok v →
        spotify_request cfg? (.ok 401 body) loadOut renewPost now (.ok st2 b2)
          = ⟨.ok ⟨st2, b2⟩, 1, true⟩) := by
  refine ⟨?_, ?_, ?_, ?_⟩
  · intro cfg? loadOut renewPost now replay st body hst
    simp only [spotify_request]
    rw [if_neg hst]
  · intro cfg? loadOut renewPost now replay body aj rt ea hload
    simp only [spotify_request, if_pos rfl, if_true, hload, pyGet_mkRecord_refresh]
    split <;> first
      | rfl
      | (split <;> first
          | rfl
          | (split <;> first
              | rfl
              | (split <;> rfl)))
  · intro cfg? loadOut renewPost now replay body aj rt ea hload hres
    simp only [spotify_request, if_pos rfl, if_true, hload, pyGet_mkRecord_refresh, hres]
  · intro cfg? loadOut renewPost now body aj td v rt ea st2 b2 hload hres hj
    simp only [spotify_request, if_pos rfl, if_true, hload, pyGet_mkRecord_refresh, hres,
      truthy_of_jIndex_ok td v "access_token" hj, hj]

/-- Witness for `spotify_request_retry_policy` at concrete inputs: no retry
on 404; exactly one renewal on 401-then-401; the original 401 when renewal
fails; the replayed success response on 401-then-200. -/
theorem spotify_request_retry_policy_witness :
    spotify_request (some cfgW) (.ok 404 (.str "x"))
      (.resp 200 (some [("spotify_tokens.json", dumps (mkRecord (.str "A") (.str "R") 100))]))
      (.ok 200 (.obj [("access_token", .str "T")])) 0 (.ok 200 (.str "y"))
      = ⟨.ok ⟨404, .str "x"⟩, 0, false⟩
    ∧ (spotify_request (some cfgW) (.ok 401 (.str "x"))
      (.resp 200 (some [("spotify_tokens.json", dumps (mkRecord (.str "A") (.str "R") 100))]))
      (.ok 200 (.obj [("access_token", .str "T")])) 0 (.ok 401 (.str "y"))).renew_calls = 1
    ∧ spotify_request (some cfgW) (.ok 401 (.str "x"))
      (.resp 200 (some [("spotify_tokens.json", dumps (mkRecord (.str "A") (.str "R") 100))]))
      (.ok 503 (.obj [])) 0 (.ok 200 (.str "y"))
      = ⟨.ok ⟨401, .str "x"⟩, 1, false⟩
    ∧ spotify_request (some cfgW) (.ok 401 (.str "x"))
      (.resp 200 (some [("spotify_tokens.json", dumps (mkRecord (.str "A") (.str "R") 100))]))
      (.ok 200 (.obj [("access_token", .str "T")])) 0 (.ok 200 (.str "y"))
      = ⟨.ok ⟨200, .str "y"⟩, 1, true⟩ :=
  ⟨spotify_request_retry_policy.1 (some cfgW)
     (.resp 200 (some [("spotify_tokens.json", dumps (mkRecord (.str "A") (.str "R") 100))]))
     (.ok 200 (.obj [("access_token", .str "T")])) 0 (.ok 200 (.str "y")) 404 (.str "x")
     (by decide),
   spotify_request_retry_policy.2.1 (some cfgW)
     (.resp 200 (some [("spotify_tokens.json", dumps (mkRecord (.str "A") (.str "R") 100))]))
     (.ok 200 (.obj [("access_token", .str "T")])) 0 (.ok 401 (.str "y")) (.str "x")
     (.str "A") "R" 100 rfl,
   spotify_request_retry_policy.2.2.1 (some cfgW)
     (.resp 200 (some [("spotify_tokens.json", dumps (mkRecord (.str "A") (.str "R") 100))]))
     (.ok 503 (.obj [])) 0 (.ok 200 (.str "y")) (.str "x") (.str "A") "R" 100 rfl rfl,
   spotify_request_retry_policy.2.2.2 (some cfgW)
     (.resp 200 (some [("spotify_tokens.json", dumps (mkRecord (.str "A") (.str "R") 100))]))
     (.ok 200 (.obj [("access_token", .str "T")])) 0 (.str "x") (.str "A")
     (.obj [("access_token", .str "T")]) (.str "T") "R" 100 200 (.str "y") rfl rfl rfl⟩

end Spofy
